import Mathlib

/-!
Verification of the generic-sdk plugin visitor
(`packages/plugins/typescript/generic-sdk/src/visitor.ts`).

The TypeScript module is embedded shallowly: the GraphQL AST fragments the
visitor inspects become inductive types, the visitor's mutable state becomes a
structure passed explicitly, a thrown `Error` becomes `Except.error`, and the
JavaScript crash on reading `.value` of a missing name becomes `Option.none`.
All definitions are executable so concrete runs can be evaluated by `decide`
or `rfl`.
-/

namespace GenericSdk

/-- Decides whether `p` occurs as a contiguous block inside `l`. -/
def listInfixCheck {α : Type} [DecidableEq α] : List α → List α → Bool
  | p, [] => p.isEmpty
  | p, a :: l => p.isPrefixOf (a :: l) || listInfixCheck p l

/-- Decides whether the string `s` contains `pat` as a substring. -/
def strContains (s pat : String) : Bool :=
  listInfixCheck pat.toList s.toList

/-- Decides whether `p` is a suffix of `s`. -/
def strSuffix (p s : String) : Bool :=
  p.toList.reverse.isPrefixOf s.toList.reverse

/-- Kind tags of GraphQL type nodes, as compared against `Kind.NON_NULL_TYPE`. -/
inductive TypeKind where
  | NON_NULL_TYPE
  | NAMED_TYPE
  | LIST_TYPE
deriving DecidableEq, Repr

/-- A GraphQL type node; the visitor only reads its `kind` field. -/
structure TypeNode where
  kind : TypeKind
deriving DecidableEq, Repr

/-- A GraphQL name node with its string `value`. -/
structure NameNode where
  value : String
deriving DecidableEq, Repr

/-- A directive attached to an operation; the visitor reads `name.value`. -/
structure DirectiveNode where
  name : NameNode
deriving DecidableEq, Repr

/-- A variable definition: the visitor reads `type.kind` and the truthiness of
`defaultValue` (a present AST value node is always truthy in JavaScript, so it
is modelled as `Option.isSome`). -/
structure VariableDefinitionNode where
  variableName : String
  type : TypeNode
  defaultValue : Option String
deriving DecidableEq, Repr

/-- The three GraphQL operation kinds. -/
inductive OperationType where
  | query
  | mutation
  | subscription
deriving DecidableEq, Repr

/-- The fields of a GraphQL `OperationDefinitionNode` that the visitor reads.
`name` and `directives` are optional in the AST, as in `graphql-js`. -/
structure OperationDefinitionNode where
  operation : OperationType
  name : Option NameNode
  directives : Option (List DirectiveNode)
  variableDefinitions : Option (List VariableDefinitionNode)
deriving DecidableEq, Repr

/-- Document modes recognized by the base visitor configuration.
`externalFile` models the enum member `DocumentMode.external`. -/
inductive DocumentMode where
  | graphQLTag
  | documentNode
  | documentNodeImportFragments
  | externalFile
  | string
deriving DecidableEq, Repr

/-- Resolved plugin configuration (`GenericSdkPluginConfig` plus the inherited
base options the visitor reads). Optional string options model JavaScript
string-or-undefined fields. -/
structure GenericSdkPluginConfig where
  usingObservableFrom : Option String
  rawRequest : Bool
  documentMode : DocumentMode
  useTypeImports : Bool
  importOperationTypesFrom : Option String
deriving DecidableEq, Repr

/-- Raw (pre-normalization) plugin configuration, every field possibly absent. -/
structure RawGenericSdkPluginConfig where
  usingObservableFrom : Option String
  rawRequest : Option Bool
  documentMode : Option DocumentMode
  useTypeImports : Option Bool
  importOperationTypesFrom : Option String
deriving DecidableEq, Repr

/-- JavaScript truthiness of a string-or-undefined value: `undefined` and the
empty string are falsy, every other string is truthy. -/
def jsTruthy : Option String → Bool
  | none => false
  | some s => !(s == "")

/-- Models the helper `getConfigValue` of `visitor-plugin-common`: the raw
value when present, the default otherwise. -/
def getConfigValue {α : Type} (value : Option α) (defaultValue : α) : α :=
  value.getD defaultValue

/-- Embeds `isStreamOperation` of `visitor.ts` lines 18-29: subscriptions are
streams, and so are queries carrying a directive named `live`. -/
def isStreamOperation (operationAST : OperationDefinitionNode) : Bool :=
  if operationAST.operation = OperationType.subscription then
    true
  else if operationAST.operation = OperationType.query &&
      (match operationAST.directives with
       | none => false
       | some ds => ds.any fun directiveNode => directiveNode.name.value == "live") then
    true
  else
    false

/-- One element of the visitor's `_operationsToInclude` accumulator. -/
structure OperationRecord where
  node : OperationDefinitionNode
  documentVariableName : String
  operationType : String
  operationResultType : String
  operationVariablesTypes : String
deriving DecidableEq, Repr

/-- Models the external `graphql` package's `print` on the operation fields
this embedding represents: operation keyword, name when present, and a
placeholder selection set. The verified statements about the error message
depend only on the printed text being appended verbatim, not on its shape. -/
def printOperationNode (node : OperationDefinitionNode) : String :=
  (match node.operation with
   | OperationType.query => "query"
   | OperationType.mutation => "mutation"
   | OperationType.subscription => "subscription")
  ++ (match node.name with
      | none => ""
      | some nm => " " ++ nm.value)
  ++ " \x7b\n  ...\n\x7d"

/-- Embeds `buildOperation` of `visitor.ts` lines 75-100. The result pairs the
control outcome (the thrown error, or the returned `null` modelled as
`Except.ok none`) with the updated accumulator; on the throw the accumulator
is returned untouched, as in the source where the `push` is not reached. -/
def buildOperation (externalImportPfx : String) (ops : List OperationRecord)
    (node : OperationDefinitionNode) (documentVariableName : String)
    (operationType : String) (operationResultType : String)
    (operationVariablesTypes : String) :
    Except String (Option String) × List OperationRecord :=
  let operationResultType := externalImportPfx ++ operationResultType
  let operationVariablesTypes := externalImportPfx ++ operationVariablesTypes
  match node.name with
  | none =>
    (Except.error
      ("Plugin \x27generic-sdk\x27 cannot generate SDK for unnamed operation.\n\n"
        ++ printOperationNode node), ops)
  | some _ =>
    (Except.ok none,
      ops ++ [{ node := node, documentVariableName := documentVariableName,
                operationType := operationType,
                operationResultType := operationResultType,
                operationVariablesTypes := operationVariablesTypes }])

/-- Embeds `getDocumentNodeVariable` of `visitor.ts` lines 102-106. -/
def getDocumentNodeVariable (cfg : GenericSdkPluginConfig)
    (documentVariableName : String) : String :=
  if cfg.documentMode = DocumentMode.externalFile then
    "Operations." ++ documentVariableName
  else
    documentVariableName

/-- The per-operation derived record computed inside `sdkContent`
(`visitor.ts` lines 110-135). -/
structure ActionConfig where
  operationName : String
  optionalVariables : Bool
  operationVariablesTypes : String
  operationResultType : String
  docVarName : String
  returnType : String
  resultData : String
deriving DecidableEq, Repr

/-- Embeds the body of the `map` at `visitor.ts` lines 110-135 for one record.
Reading `o.node.name.value` on a record with an absent name is the JavaScript
`TypeError`; it is modelled as `none`. -/
def actionConfigOf (cfg : GenericSdkPluginConfig) (o : OperationRecord) :
    Option ActionConfig :=
  match o.node.name with
  | none => none
  | some nm =>
    let operationName := nm.value
    let optionalVariables :=
      match o.node.variableDefinitions with
      | none => true
      | some vds =>
        vds.length == 0 ||
          vds.all fun v => !(v.type.kind == TypeKind.NON_NULL_TYPE) || v.defaultValue.isSome
    let docVarName := getDocumentNodeVariable cfg o.documentVariableName
    let returnType :=
      if isStreamOperation o.node then
        if jsTruthy cfg.usingObservableFrom then "Observable" else "AsyncIterable"
      else
        "Promise"
    let resultData :=
      if cfg.rawRequest then
        "ExecutionResult<" ++ o.operationResultType ++ ", E>"
      else
        o.operationResultType
    some { operationName := operationName, optionalVariables := optionalVariables,
           operationVariablesTypes := o.operationVariablesTypes,
           operationResultType := o.operationResultType,
           docVarName := docVarName, returnType := returnType,
           resultData := resultData }

/-- The `map` at `visitor.ts` lines 110-135 over the whole accumulator; `none`
as soon as one record has no name, since the JavaScript `map` crashes there. -/
def actionConfigsOf (cfg : GenericSdkPluginConfig) :
    List OperationRecord → Option (List ActionConfig)
  | [] => some []
  | o :: rest =>
    match actionConfigOf cfg o, actionConfigsOf cfg rest with
    | some a, some l => some (a :: l)
    | _, _ => none

/-- The interpolation `variables${o.optionalVariables ? '?' : ''}` shared by
the free-function and factory-method templates. -/
def variablesParam (optionalVariables : Bool) : String :=
  "variables" ++ (if optionalVariables then "?" else "")

/-- Embeds the free-standing function template of `visitor.ts` lines 139-145. -/
def actionFunString (o : ActionConfig) : String :=
  "export function " ++ o.operationName ++ "<C, E>(requester: Requester<C, E>, "
    ++ variablesParam o.optionalVariables ++ ": " ++ o.operationVariablesTypes
    ++ ", options?: C): " ++ o.returnType ++ "<" ++ o.resultData ++ "> \x7b\n"
    ++ "  return requester<" ++ o.operationResultType ++ ", "
    ++ o.operationVariablesTypes ++ ">(" ++ o.docVarName
    ++ ", variables, options) as " ++ o.returnType ++ "<" ++ o.resultData ++ ">;\n\x7d"

/-- Embeds the factory-method template of `visitor.ts` lines 150-154. -/
def actionImplString (o : ActionConfig) : String :=
  o.operationName ++ "(" ++ variablesParam o.optionalVariables ++ ": "
    ++ o.operationVariablesTypes ++ ", options?: C): " ++ o.returnType
    ++ "<" ++ o.resultData ++ "> \x7b\n"
    ++ "  return " ++ o.operationName ++ "(requester, variables, options) as "
    ++ o.returnType ++ "<" ++ o.resultData ++ ">;\n\x7d"

/-- Replaces every newline by a newline followed by the indentation, the
regex replace inside the external helper `indentMultiline`. -/
def replNL (ind : String) : List Char → List Char
  | [] => []
  | c :: cs =>
    if c = '\n' then '\n' :: (ind.toList ++ replNL ind cs)
    else c :: replNL ind cs

/-- Models the external helper `indentMultiline` of `visitor-plugin-common`:
prefix the text with `count` two-space indents and indent every further line. -/
def indentMultiline (str : String) (count : Nat) : String :=
  let indentation := String.join (List.replicate count "  ")
  indentation ++ String.mk (replNL indentation str.toList)

/-- The local `documentNodeType` of `visitor.ts` lines 157-158. -/
def documentNodeTypeOf (cfg : GenericSdkPluginConfig) : String :=
  if cfg.documentMode = DocumentMode.string then "string" else "DocumentNode"

/-- The local `resultData` of `visitor.ts` line 159: the per-call payload of
the emitted `Requester` type. -/
def requesterResultDataOf (cfg : GenericSdkPluginConfig) : String :=
  if cfg.rawRequest then "ExecutionResult<R, E>" else "R"

/-- The local `returnType` of `visitor.ts` lines 160-162: the return type of
the emitted `Requester` type. -/
def requesterReturnTypeOf (cfg : GenericSdkPluginConfig) : String :=
  "Promise<" ++ requesterResultDataOf cfg ++ "> | "
    ++ (if jsTruthy cfg.usingObservableFrom then "Observable" else "AsyncIterable")
    ++ "<" ++ requesterResultDataOf cfg ++ ">"

/-- The `export type Requester` line of the template at `visitor.ts` line 166. -/
def requesterLineOf (cfg : GenericSdkPluginConfig) : String :=
  "export type Requester<C = \x7b\x7d, E = unknown> = <R, V>(doc: "
    ++ documentNodeTypeOf cfg ++ ", vars?: V, options?: C) => "
    ++ requesterReturnTypeOf cfg

/-- Embeds the `sdkContent` getter (`visitor.ts` lines 108-173) as a function
of the configuration and the accumulated records; `none` models the crash on
an unnamed accumulated record. -/
def sdkContentOf (cfg : GenericSdkPluginConfig) (ops : List OperationRecord) :
    Option String :=
  match actionConfigsOf cfg ops with
  | none => none
  | some cfgs =>
    let allPossibleActions :=
      (cfgs.map actionFunString).map fun s => indentMultiline s 2
    let allPossibleActionsImpl := cfgs.map actionImplString
    some (("\n" ++ String.intercalate "\n" allPossibleActions ++ "\n")
      ++ (requesterLineOf cfg
        ++ ("\n"
          ++ "export function getSdk<C, E>(requester: Requester<C, E>) \x7b\n"
          ++ "  return \x7b\n"
          ++ String.intercalate ",\n" allPossibleActionsImpl
          ++ "\n  \x7d;\n\x7d\nexport type Sdk = ReturnType<typeof getSdk>;")))

/-- The `import { ... }` keyword choice at `visitor.ts` line 59. -/
def importTypeOf (cfg : GenericSdkPluginConfig) : String :=
  if cfg.useTypeImports then "import type" else "import"

/-- The observable-module import registered at `visitor.ts` lines 56-58. -/
def observableImportsOf (cfg : GenericSdkPluginConfig) : List String :=
  if jsTruthy cfg.usingObservableFrom then [cfg.usingObservableFrom.getD ""] else []

/-- The graphql type imports registered at `visitor.ts` lines 60-68. -/
def graphqlTypeImportsOf (cfg : GenericSdkPluginConfig) : List String :=
  if cfg.documentMode ≠ DocumentMode.string then
    [importTypeOf cfg ++ " \x7b DocumentNode"
      ++ (if cfg.rawRequest then ", ExecutionResult" else "")
      ++ " \x7d from \x27graphql\x27;"]
  else if cfg.rawRequest then
    [importTypeOf cfg ++ " \x7b ExecutionResult \x7d from \x27graphql\x27;"]
  else
    []

/-- Everything pushed onto `_additionalImports` during construction
(`visitor.ts` lines 56-68), in push order. -/
def additionalImportsOf (cfg : GenericSdkPluginConfig) : List String :=
  observableImportsOf cfg ++ graphqlTypeImportsOf cfg

/-- The `_externalImportPrefix` field computed at `visitor.ts` lines 70-72. -/
def externalImportPfxOf (cfg : GenericSdkPluginConfig) : String :=
  if jsTruthy cfg.importOperationTypesFrom then
    cfg.importOperationTypesFrom.getD "" ++ "."
  else
    ""

/-- The visitor state: resolved configuration, the precomputed external type
qualifier, the import list, and the operation accumulator. -/
structure GenericSdkVisitor where
  config : GenericSdkPluginConfig
  externalImportPfx : String
  additionalImports : List String
  operationsToInclude : List OperationRecord
deriving DecidableEq, Repr

/-- Embeds the constructor (`visitor.ts` lines 44-73): normalizes the raw
configuration (defaulting `rawRequest` to `false`), registers the
additional imports, precomputes the external type qualifier, starts empty in the
accumulator. -/
def mkGenericSdkVisitor (raw : RawGenericSdkPluginConfig) : GenericSdkVisitor :=
  let cfg : GenericSdkPluginConfig :=
    { usingObservableFrom := raw.usingObservableFrom,
      rawRequest := getConfigValue raw.rawRequest false,
      documentMode := getConfigValue raw.documentMode DocumentMode.graphQLTag,
      useTypeImports := getConfigValue raw.useTypeImports false,
      importOperationTypesFrom := raw.importOperationTypesFrom }
  { config := cfg,
    externalImportPfx := externalImportPfxOf cfg,
    additionalImports := additionalImportsOf cfg,
    operationsToInclude := [] }

/-- One visit step on the visitor state: `buildOperation` with the state's
qualifier and accumulator, the thrown error or returned value first, the
updated state second. -/
def visitOperation (v : GenericSdkVisitor) (node : OperationDefinitionNode)
    (documentVariableName : String) (operationType : String)
    (operationResultType : String) (operationVariablesTypes : String) :
    Except String (Option String) × GenericSdkVisitor :=
  let r := buildOperation v.externalImportPfx v.operationsToInclude node
    documentVariableName operationType operationResultType operationVariablesTypes
  (r.1, { v with operationsToInclude := r.2 })

/-- The `sdkContent` getter on the visitor state. -/
def sdkContentV (v : GenericSdkVisitor) : Option String :=
  sdkContentOf v.config v.operationsToInclude

/-- The `sdkContent` getter as a state transformer: it reads the state and
performs no assignment (`visitor.ts` lines 108-173 contain only reads), so
the state component of the result is the input state. -/
def sdkContentRun (v : GenericSdkVisitor) : Option String × GenericSdkVisitor :=
  (sdkContentV v, v)

/-- The spec's condition for optional variables: the operation declares no
variables (missing or empty variable-definition list), or every declared
variable is nullable (its type is not a non-null type) or has a default
value. -/
def specVariablesOptional (n : OperationDefinitionNode) : Prop :=
  n.variableDefinitions = none ∨ n.variableDefinitions = some [] ∨
    ∃ vds, n.variableDefinitions = some vds ∧
      ∀ v ∈ vds, v.type.kind ≠ TypeKind.NON_NULL_TYPE ∨ v.defaultValue.isSome = true

/-- Spec-side rendering of the `Requester` return type, written from the
spec's words: a single-shot promise of the payload (the bare `R`, or the
execution-result envelope when `rawRequest` is true), or the corresponding
stream type of the same payload — `Observable` when `usingObservableFrom` is
set, `AsyncIterable` otherwise. -/
def specRequesterReturn (cfg : GenericSdkPluginConfig) : String :=
  let payload := if cfg.rawRequest then "ExecutionResult<R, E>" else "R"
  if jsTruthy cfg.usingObservableFrom then
    "Promise<" ++ payload ++ "> | Observable<" ++ payload ++ ">"
  else
    "Promise<" ++ payload ++ "> | AsyncIterable<" ++ payload ++ ">"

/-! Concrete exemplars used by the witness theorems. -/

/-- A default configuration: no observable module, no raw requests, default
document mode, no type imports, no external type module. -/
def cfgPlain : GenericSdkPluginConfig :=
  { usingObservableFrom := none, rawRequest := false,
    documentMode := DocumentMode.graphQLTag, useTypeImports := false,
    importOperationTypesFrom := none }

/-- A configuration with an observable module and raw requests enabled. -/
def cfgObservableRaw : GenericSdkPluginConfig :=
  { usingObservableFrom := some "observable-module", rawRequest := true,
    documentMode := DocumentMode.graphQLTag, useTypeImports := false,
    importOperationTypesFrom := none }

/-- An accumulated record for a query `GetUser` with one non-null,
no-default variable. -/
def recGetUser : OperationRecord :=
  { node := { operation := OperationType.query, name := some { value := "GetUser" },
              directives := none,
              variableDefinitions := some
                [{ variableName := "id",
                   type := { kind := TypeKind.NON_NULL_TYPE },
                   defaultValue := none }] },
    documentVariableName := "GetUserDocument", operationType := "Query",
    operationResultType := "GetUserQuery",
    operationVariablesTypes := "GetUserQueryVariables" }

/-- The action record that rendering derives from `recGetUser` under
`cfgPlain`. -/
def acGetUser : ActionConfig :=
  { operationName := "GetUser", optionalVariables := false,
    operationVariablesTypes := "GetUserQueryVariables",
    operationResultType := "GetUserQuery", docVarName := "GetUserDocument",
    returnType := "Promise", resultData := "GetUserQuery" }

/-- An accumulated record for a subscription `OnMessage` without variables. -/
def recOnMessage : OperationRecord :=
  { node := { operation := OperationType.subscription,
              name := some { value := "OnMessage" },
              directives := none, variableDefinitions := none },
    documentVariableName := "OnMessageDocument", operationType := "Subscription",
    operationResultType := "OnMessageSubscription",
    operationVariablesTypes := "OnMessageSubscriptionVariables" }

/-- The action record that rendering derives from `recOnMessage` under
`cfgObservableRaw`. -/
def acOnMessage : ActionConfig :=
  { operationName := "OnMessage", optionalVariables := true,
    operationVariablesTypes := "OnMessageSubscriptionVariables",
    operationResultType := "OnMessageSubscription",
    docVarName := "OnMessageDocument",
    returnType := "Observable",
    resultData := "ExecutionResult<OnMessageSubscription, E>" }

/-- A visitor state holding one accumulated record. -/
def visitorA : GenericSdkVisitor :=
  { config := cfgPlain, externalImportPfx := "",
    additionalImports := [], operationsToInclude := [recGetUser] }

/-- A visitor state agreeing with `visitorA` on configuration and accumulator
but differing in the remaining fields. -/
def visitorB : GenericSdkVisitor :=
  { config := cfgPlain, externalImportPfx := "Ops.",
    additionalImports := ["extra-import"], operationsToInclude := [recGetUser] }

/-- An operation definition node with an absent name. -/
def nodeUnnamed : OperationDefinitionNode :=
  { operation := OperationType.query, name := none, directives := none,
    variableDefinitions := none }

/-- An operation definition node whose name is present but empty. -/
def nodeEmptyName : OperationDefinitionNode :=
  { operation := OperationType.query, name := some { value := "" },
    directives := none, variableDefinitions := none }

/-! Helper lemmas shared by the claim theorems. -/

theorem isPrefixOf_self_append {α : Type} [DecidableEq α] (l t : List α) :
    l.isPrefixOf (l ++ t) = true := by
  induction l with
  | nil => simp [List.isPrefixOf]
  | cons a l ih => simp [List.isPrefixOf, ih]

theorem strSuffix_append (m p : String) : strSuffix p (m ++ p) = true := by
  unfold strSuffix
  have h : (m ++ p).toList = m.toList ++ p.toList := by
    simp [String.toList, String.data_append]
  rw [h, List.reverse_append]
  exact isPrefixOf_self_append _ _

theorem actionConfigOf_eq_some (cfg : GenericSdkPluginConfig) (o : OperationRecord)
    (nm : NameNode) (hn : o.node.name = some nm) :
    actionConfigOf cfg o = some
      { operationName := nm.value,
        optionalVariables :=
          match o.node.variableDefinitions with
          | none => true
          | some vds =>
            vds.length == 0 ||
              vds.all fun v =>
                !(v.type.kind == TypeKind.NON_NULL_TYPE) || v.defaultValue.isSome,
        operationVariablesTypes := o.operationVariablesTypes,
        operationResultType := o.operationResultType,
        docVarName := getDocumentNodeVariable cfg o.documentVariableName,
        returnType :=
          if isStreamOperation o.node then
            if jsTruthy cfg.usingObservableFrom then "Observable" else "AsyncIterable"
          else "Promise",
        resultData :=
          if cfg.rawRequest then "ExecutionResult<" ++ o.operationResultType ++ ", E>"
          else o.operationResultType } := by
  unfold actionConfigOf
  rw [hn]

theorem actionConfigOf_none (cfg : GenericSdkPluginConfig) (o : OperationRecord)
    (hn : o.node.name = none) : actionConfigOf cfg o = none := by
  unfold actionConfigOf
  rw [hn]

theorem actionConfigOf_name_some (cfg : GenericSdkPluginConfig) (o : OperationRecord)
    (ac : ActionConfig) (h : actionConfigOf cfg o = some ac) :
    ∃ nm, o.node.name = some nm := by
  cases hx : o.node.name with
  | none => rw [actionConfigOf_none cfg o hx] at h; cases h
  | some nm => exact ⟨nm, rfl⟩

theorem actionConfigOf_optionalVariables (cfg : GenericSdkPluginConfig)
    (o : OperationRecord) (ac : ActionConfig) (h : actionConfigOf cfg o = some ac) :
    ac.optionalVariables =
      match o.node.variableDefinitions with
      | none => true
      | some vds =>
        vds.length == 0 ||
          vds.all fun v =>
            !(v.type.kind == TypeKind.NON_NULL_TYPE) || v.defaultValue.isSome := by
  obtain ⟨nm, hn⟩ := actionConfigOf_name_some cfg o ac h
  rw [actionConfigOf_eq_some cfg o nm hn] at h
  cases Option.some.inj h
  rfl

theorem actionConfigOf_returnType (cfg : GenericSdkPluginConfig)
    (o : OperationRecord) (ac : ActionConfig) (h : actionConfigOf cfg o = some ac) :
    ac.returnType =
      if isStreamOperation o.node then
        if jsTruthy cfg.usingObservableFrom then "Observable" else "AsyncIterable"
      else "Promise" := by
  obtain ⟨nm, hn⟩ := actionConfigOf_name_some cfg o ac h
  rw [actionConfigOf_eq_some cfg o nm hn] at h
  cases Option.some.inj h
  rfl

theorem actionConfigOf_resultData (cfg : GenericSdkPluginConfig)
    (o : OperationRecord) (ac : ActionConfig) (h : actionConfigOf cfg o = some ac) :
    ac.resultData =
      if cfg.rawRequest then "ExecutionResult<" ++ o.operationResultType ++ ", E>"
      else o.operationResultType := by
  obtain ⟨nm, hn⟩ := actionConfigOf_name_some cfg o ac h
  rw [actionConfigOf_eq_some cfg o nm hn] at h
  cases Option.some.inj h
  rfl

theorem actionConfigOf_operationName (cfg : GenericSdkPluginConfig)
    (o : OperationRecord) (ac : ActionConfig) (h : actionConfigOf cfg o = some ac) :
    ac.operationName = (o.node.name.getD { value := "" }).value := by
  obtain ⟨nm, hn⟩ := actionConfigOf_name_some cfg o ac h
  rw [actionConfigOf_eq_some cfg o nm hn] at h
  cases Option.some.inj h
  rw [hn]
  rfl

theorem actionConfigsOf_isSome (cfg : GenericSdkPluginConfig)
    (ops : List OperationRecord)
    (h : ∀ o ∈ ops, o.node.name.isSome = true) :
    (actionConfigsOf cfg ops).isSome = true := by
  induction ops with
  | nil => rfl
  | cons o rest ih =>
    have h1 : (actionConfigOf cfg o).isSome = true := by
      obtain ⟨nm, hn⟩ : ∃ nm, o.node.name = some nm := by
        have := h o (by simp)
        cases hx : o.node.name with
        | none => rw [hx] at this; cases this
        | some nm => exact ⟨nm, rfl⟩
      rw [actionConfigOf_eq_some cfg o nm hn]
      rfl
    have h2 : (actionConfigsOf cfg rest).isSome = true :=
      ih fun x hx => h x (by simp [hx])
    rcases hcase : actionConfigOf cfg o with _ | a
    · rw [hcase] at h1; cases h1
    · rcases hrest : actionConfigsOf cfg rest with _ | l
      · rw [hrest] at h2; cases h2
      · unfold actionConfigsOf
        rw [hcase, hrest]
        rfl

theorem actionConfigsOf_length (cfg : GenericSdkPluginConfig) :
    ∀ (ops : List OperationRecord) (cfgs : List ActionConfig),
      actionConfigsOf cfg ops = some cfgs → cfgs.length = ops.length := by
  intro ops
  induction ops with
  | nil =>
    intro cfgs h
    unfold actionConfigsOf at h
    cases Option.some.inj h
    rfl
  | cons o rest ih =>
    intro cfgs h
    unfold actionConfigsOf at h
    rcases ha : actionConfigOf cfg o with _ | a <;> rw [ha] at h
    · cases h
    · rcases hr : actionConfigsOf cfg rest with _ | l <;> rw [hr] at h
      · cases h
      · cases Option.some.inj h
        simp [ih l hr]

theorem actionConfigsOf_names (cfg : GenericSdkPluginConfig) :
    ∀ (ops : List OperationRecord) (cfgs : List ActionConfig),
      actionConfigsOf cfg ops = some cfgs →
      cfgs.map ActionConfig.operationName =
        ops.map fun o => (o.node.name.getD { value := "" }).value := by
  intro ops
  induction ops with
  | nil =>
    intro cfgs h
    unfold actionConfigsOf at h
    cases Option.some.inj h
    rfl
  | cons o rest ih =>
    intro cfgs h
    unfold actionConfigsOf at h
    rcases ha : actionConfigOf cfg o with _ | a <;> rw [ha] at h
    · cases h
    · rcases hr : actionConfigsOf cfg rest with _ | l <;> rw [hr] at h
      · cases h
      · cases Option.some.inj h
        simp [ih l hr, actionConfigOf_operationName cfg o a ha]

theorem sdkContentOf_eq (cfg : GenericSdkPluginConfig)
    (ops : List OperationRecord) (cfgs : List ActionConfig)
    (h : actionConfigsOf cfg ops = some cfgs) :
    sdkContentOf cfg ops = some
      (("\n"
          ++ String.intercalate "\n"
              ((cfgs.map actionFunString).map fun s => indentMultiline s 2)
          ++ "\n")
        ++ (requesterLineOf cfg
          ++ ("\n"
            ++ "export function getSdk<C, E>(requester: Requester<C, E>) \x7b\n"
            ++ "  return \x7b\n"
            ++ String.intercalate ",\n" (cfgs.map actionImplString)
            ++ "\n  \x7d;\n\x7d\nexport type Sdk = ReturnType<typeof getSdk>;"))) := by
  unfold sdkContentOf
  rw [h]

theorem sdkContentOf_isSome (cfg : GenericSdkPluginConfig)
    (ops : List OperationRecord)
    (h : ∀ o ∈ ops, o.node.name.isSome = true) :
    (sdkContentOf cfg ops).isSome = true := by
  rcases hx : actionConfigsOf cfg ops with _ | cfgs
  · have := actionConfigsOf_isSome cfg ops h
    rw [hx] at this
    cases this
  · rw [sdkContentOf_eq cfg ops cfgs hx]
    rfl

theorem buildOperation_preserves_named (externalImportPfx : String)
    (ops : List OperationRecord) (node : OperationDefinitionNode)
    (dvn ot ort ovt : String)
    (h : ∀ o ∈ ops, o.node.name.isSome = true) :
    ∀ o ∈ (buildOperation externalImportPfx ops node dvn ot ort ovt).2,
      o.node.name.isSome = true := by
  cases hn : node.name with
  | none =>
    intro o ho
    unfold buildOperation at ho
    rw [hn] at ho
    exact h o ho
  | some nm =>
    intro o ho
    unfold buildOperation at ho
    rw [hn] at ho
    simp only [List.mem_append, List.mem_singleton] at ho
    rcases ho with ho | ho
    · exact h o ho
    · rw [ho]
      simp [hn]

/-! Claim theorems. -/

/-- C1: `isStreamOperation` returns true exactly for subscription operations
and for query operations carrying a directive named `live`; it returns false
in every other case, in particular for every mutation regardless of its
directives and for every query without a `live` directive. -/
theorem isStreamOperation_characterization (n : OperationDefinitionNode) :
    isStreamOperation n = true ↔
      (n.operation = OperationType.subscription ∨
        (n.operation = OperationType.query ∧
          ∃ ds, n.directives = some ds ∧ ∃ d ∈ ds, d.name.value = "live")) := by
  rcases n with ⟨op, nm, dirs, vds⟩
  unfold isStreamOperation
  cases op <;> cases dirs <;>
    simp [List.any_eq_true]

/-- C2: the `optionalVariables` flag derived during rendering is true exactly
under the spec's condition, and the variables parameter of the emitted
function carries a `?` exactly when the flag is true. -/
theorem optionalVariables_characterization (cfg : GenericSdkPluginConfig)
    (o : OperationRecord) (ac : ActionConfig)
    (h : actionConfigOf cfg o = some ac) :
    (ac.optionalVariables = true ↔ specVariablesOptional o.node) ∧
    (variablesParam ac.optionalVariables = "variables?" ↔
      ac.optionalVariables = true) := by
  constructor
  · rw [actionConfigOf_optionalVariables cfg o ac h]
    rcases hvd : o.node.variableDefinitions with _ | vds
    · simp [specVariablesOptional, hvd]
    · simp [specVariablesOptional, hvd, List.all_eq_true, List.length_eq_zero]
  · cases hb : ac.optionalVariables
    · constructor
      · intro hcontra
        exact absurd hcontra (by decide)
      · intro hcontra
        cases hcontra
    · simp [variablesParam]

/-- Witness for C2 at the query `GetUser` with one non-null, no-default
variable, whose derived flag is false. -/
theorem optionalVariables_characterization_witness :
    (acGetUser.optionalVariables = true ↔ specVariablesOptional recGetUser.node) ∧
    (variablesParam acGetUser.optionalVariables = "variables?" ↔
      acGetUser.optionalVariables = true) :=
  optionalVariables_characterization cfgPlain recGetUser acGetUser (by decide)

/-- C3: on an operation node without a name, `buildOperation` produces the
fatal error whose message ends with the printed AST of the operation and
leaves the accumulator unchanged; on every named operation it succeeds and
appends the record, so the absent name is the only failure mode. -/
theorem buildOperation_unnamed_error (externalImportPfx : String)
    (ops : List OperationRecord) (node : OperationDefinitionNode)
    (dvn ot ort ovt : String) :
    (node.name = none →
      buildOperation externalImportPfx ops node dvn ot ort ovt =
        (Except.error
          ("Plugin \x27generic-sdk\x27 cannot generate SDK for unnamed operation.\n\n"
            ++ printOperationNode node), ops) ∧
      strSuffix (printOperationNode node)
        ("Plugin \x27generic-sdk\x27 cannot generate SDK for unnamed operation.\n\n"
          ++ printOperationNode node) = true) ∧
    (∀ nm, node.name = some nm →
      buildOperation externalImportPfx ops node dvn ot ort ovt =
        (Except.ok none,
          ops ++ [{ node := node, documentVariableName := dvn,
                    operationType := ot,
                    operationResultType := externalImportPfx ++ ort,
                    operationVariablesTypes := externalImportPfx ++ ovt }])) := by
  constructor
  · intro hn
    refine ⟨?_, strSuffix_append _ _⟩
    unfold buildOperation
    rw [hn]
  · intro nm hn
    unfold buildOperation
    rw [hn]

/-- Witness for C3 at a concrete unnamed query node with an empty
accumulator. -/
theorem buildOperation_unnamed_error_witness :
    buildOperation "" [] nodeUnnamed "Doc" "query" "R" "V" =
      (Except.error
        ("Plugin \x27generic-sdk\x27 cannot generate SDK for unnamed operation.\n\n"
          ++ printOperationNode nodeUnnamed), []) ∧
    strSuffix (printOperationNode nodeUnnamed)
      ("Plugin \x27generic-sdk\x27 cannot generate SDK for unnamed operation.\n\n"
        ++ printOperationNode nodeUnnamed) = true :=
  (buildOperation_unnamed_error "" [] nodeUnnamed "Doc" "query" "R" "V").1 rfl

/-- C4 counterexample: an operation whose name is present but empty is not
rejected — `buildOperation` succeeds and appends a record whose stored name
value is the empty string, refuting that non-emptiness is enforced at
creation time. -/
theorem buildOperation_accepts_empty_name :
    (buildOperation "" [] nodeEmptyName "Doc" "query" "R" "V").1 =
      Except.ok none ∧
    ((buildOperation "" [] nodeEmptyName "Doc" "query" "R" "V").2.map
      fun r => r.node.name.map NameNode.value) = [some ""] :=
  ⟨rfl, rfl⟩

/-- C4 amended: every record appended by `buildOperation` has a present
(non-null) name — creation rejects operations with an absent name with a
fatal error — but the name's value is not checked for non-emptiness. -/
theorem buildOperation_records_named (externalImportPfx : String)
    (ops : List OperationRecord) (node : OperationDefinitionNode)
    (dvn ot ort ovt : String)
    (h : ∀ o ∈ ops, o.node.name.isSome = true) :
    (∀ o ∈ (buildOperation externalImportPfx ops node dvn ot ort ovt).2,
      o.node.name.isSome = true) ∧
    (node.name = none →
      ∃ msg, (buildOperation externalImportPfx ops node dvn ot ort ovt).1 =
        Except.error msg) := by
  cases hn : node.name with
  | none =>
    constructor
    · intro o ho
      unfold buildOperation at ho
      rw [hn] at ho
      exact h o ho
    · intro _
      exact ⟨_, by unfold buildOperation; rw [hn]⟩
  | some nm =>
    constructor
    · intro o ho
      unfold buildOperation at ho
      rw [hn] at ho
      simp only [List.mem_append, List.mem_singleton] at ho
      rcases ho with ho | ho
      · exact h o ho
      · rw [ho]
        simp [hn]
    · intro hcontra
      cases hcontra

/-- Witness for C4's amended statement at a named node over an empty
accumulator. -/
theorem buildOperation_records_named_witness :
    (∀ o ∈ (buildOperation "" [] recGetUser.node "Doc" "query" "R" "V").2,
      o.node.name.isSome = true) ∧
    (recGetUser.node.name = none →
      ∃ msg, (buildOperation "" [] recGetUser.node "Doc" "query" "R" "V").1 =
        Except.error msg) :=
  buildOperation_records_named "" [] recGetUser.node "Doc" "query" "R" "V"
    (by intro o ho; cases ho)

/-- C5: rendering is a pure, deterministic function of the accumulated
operation list and the configuration — two visitor states agreeing on those
two fields render byte-identical output — the getter leaves the state
unchanged, and invoking it twice with no visits in between yields the same
string. -/
theorem sdkContent_deterministic (v w : GenericSdkVisitor)
    (hc : v.config = w.config)
    (ho : v.operationsToInclude = w.operationsToInclude) :
    (sdkContentRun v).1 = (sdkContentRun w).1 ∧
    (sdkContentRun v).2 = v ∧
    (sdkContentRun ((sdkContentRun v).2)).1 = (sdkContentRun v).1 := by
  refine ⟨?_, rfl, rfl⟩
  simp only [sdkContentRun, sdkContentV, hc, ho]

/-- Witness for C5 at two concrete visitor states that differ in their
additional-import list and external qualifier but agree on configuration and
accumulator. -/
theorem sdkContent_deterministic_witness :
    (sdkContentRun visitorA).1 = (sdkContentRun visitorB).1 ∧
    (sdkContentRun visitorA).2 = visitorA ∧
    (sdkContentRun ((sdkContentRun visitorA).2)).1 = (sdkContentRun visitorA).1 :=
  sdkContent_deterministic visitorA visitorB rfl rfl

/-- C6: the emitted `Requester` return type is the union of a single-shot
promise of the payload — bare `R`, or the execution-result envelope when
`rawRequest` is true — and the stream type of the same payload, `Observable`
exactly when `usingObservableFrom` is set and `AsyncIterable` otherwise; this
return type ends the `Requester` line that rendering places in the output. -/
theorem requesterReturnType_matches_spec (cfg : GenericSdkPluginConfig)
    (ops : List OperationRecord) (cfgs : List ActionConfig)
    (h : actionConfigsOf cfg ops = some cfgs) :
    requesterReturnTypeOf cfg = specRequesterReturn cfg ∧
    strSuffix (requesterReturnTypeOf cfg) (requesterLineOf cfg) = true ∧
    ∃ pre post, sdkContentOf cfg ops = some (pre ++ (requesterLineOf cfg ++ post)) := by
  refine ⟨?_, ?_, ⟨_, _, sdkContentOf_eq cfg ops cfgs h⟩⟩
  · unfold requesterReturnTypeOf specRequesterReturn requesterResultDataOf
    cases hr : cfg.rawRequest <;> cases hu : jsTruthy cfg.usingObservableFrom <;> simp
  · unfold requesterLineOf
    exact strSuffix_append _ _

/-- Witness for C6 at a configuration with an observable module and raw
requests over one accumulated subscription. -/
theorem requesterReturnType_matches_spec_witness :
    requesterReturnTypeOf cfgObservableRaw = specRequesterReturn cfgObservableRaw ∧
    strSuffix (requesterReturnTypeOf cfgObservableRaw)
      (requesterLineOf cfgObservableRaw) = true ∧
    ∃ pre post, sdkContentOf cfgObservableRaw [recOnMessage] =
      some (pre ++ (requesterLineOf cfgObservableRaw ++ post)) :=
  requesterReturnType_matches_spec cfgObservableRaw [recOnMessage] [acOnMessage] rfl

/-- C7: the per-operation return-type shape is `Observable` exactly when the
operation is stream-like and an observable module is configured,
`AsyncIterable` exactly when it is stream-like and none is configured, and
`Promise` exactly when it is not stream-like. -/
theorem returnTypeShape_characterization (cfg : GenericSdkPluginConfig)
    (o : OperationRecord) (ac : ActionConfig)
    (h : actionConfigOf cfg o = some ac) :
    (ac.returnType = "Observable" ↔
      (isStreamOperation o.node = true ∧ jsTruthy cfg.usingObservableFrom = true)) ∧
    (ac.returnType = "AsyncIterable" ↔
      (isStreamOperation o.node = true ∧ jsTruthy cfg.usingObservableFrom = false)) ∧
    (ac.returnType = "Promise" ↔ isStreamOperation o.node = false) := by
  rw [actionConfigOf_returnType cfg o ac h]
  cases hs : isStreamOperation o.node <;>
    cases hu : jsTruthy cfg.usingObservableFrom <;> decide

/-- Witness for C7 at the subscription `OnMessage` with an observable module
configured. -/
theorem returnTypeShape_characterization_witness :
    (acOnMessage.returnType = "Observable" ↔
      (isStreamOperation recOnMessage.node = true ∧
        jsTruthy cfgObservableRaw.usingObservableFrom = true)) ∧
    (acOnMessage.returnType = "AsyncIterable" ↔
      (isStreamOperation recOnMessage.node = true ∧
        jsTruthy cfgObservableRaw.usingObservableFrom = false)) ∧
    (acOnMessage.returnType = "Promise" ↔
      isStreamOperation recOnMessage.node = false) :=
  returnTypeShape_characterization cfgObservableRaw recOnMessage acOnMessage rfl

/-- C8: when `rawRequest` is true the per-operation payload is the
execution-result envelope of the operation's result type and `E`, the
`Requester` payload is the envelope of `R` and `E`, and the construction-time
list of imports contains an `ExecutionResult` import; when `rawRequest` is false
the payload is the bare result type, and string document mode together with
`rawRequest` false registers no graphql type import at all. -/
theorem rawRequest_envelope (cfg : GenericSdkPluginConfig)
    (o : OperationRecord) (ac : ActionConfig)
    (h : actionConfigOf cfg o = some ac) :
    (cfg.rawRequest = true →
      ac.resultData = "ExecutionResult<" ++ o.operationResultType ++ ", E>" ∧
      requesterResultDataOf cfg = "ExecutionResult<R, E>" ∧
      (additionalImportsOf cfg).any
        (fun s => strContains s "ExecutionResult") = true) ∧
    (cfg.rawRequest = false →
      ac.resultData = o.operationResultType ∧
      requesterResultDataOf cfg = "R") ∧
    (cfg.documentMode = DocumentMode.string ∧ cfg.rawRequest = false →
      graphqlTypeImportsOf cfg = []) := by
  have hrd := actionConfigOf_resultData cfg o ac h
  rcases cfg with ⟨uof, rr, dm, uti, iotf⟩
  refine ⟨?_, ?_, ?_⟩
  · intro hr
    subst hr
    refine ⟨by simpa using hrd, rfl, ?_⟩
    have hg : (graphqlTypeImportsOf ⟨uof, true, dm, uti, iotf⟩).any
        (fun s => strContains s "ExecutionResult") = true := by
      cases dm <;> cases uti <;>
        simp [graphqlTypeImportsOf, importTypeOf] <;> decide
    show ((observableImportsOf _ ++ graphqlTypeImportsOf _).any _) = true
    rw [List.any_append, hg, Bool.or_true]
  · intro hr
    subst hr
    exact ⟨by simpa using hrd, rfl⟩
  · rintro ⟨hdm, hr⟩
    subst hdm
    subst hr
    cases uti <;> rfl

/-- Witness for C8 at a raw-request configuration with an observable module
over the accumulated subscription `OnMessage`. -/
theorem rawRequest_envelope_witness :
    (cfgObservableRaw.rawRequest = true →
      acOnMessage.resultData =
        "ExecutionResult<" ++ recOnMessage.operationResultType ++ ", E>" ∧
      requesterResultDataOf cfgObservableRaw = "ExecutionResult<R, E>" ∧
      (additionalImportsOf cfgObservableRaw).any
        (fun s => strContains s "ExecutionResult") = true) ∧
    (cfgObservableRaw.rawRequest = false →
      acOnMessage.resultData = recOnMessage.operationResultType ∧
      requesterResultDataOf cfgObservableRaw = "R") ∧
    (cfgObservableRaw.documentMode = DocumentMode.string ∧
        cfgObservableRaw.rawRequest = false →
      graphqlTypeImportsOf cfgObservableRaw = []) :=
  rawRequest_envelope cfgObservableRaw recOnMessage acOnMessage rfl

/-- C9: if every accumulated record has a present name — which every visit
step preserves, since `buildOperation` appends only named records — then the
rendering accessor's unguarded read of the name value is safe: `sdkContent`
produces a string rather than the crash modelled by `none`. -/
theorem accumulated_name_read_safe (v : GenericSdkVisitor)
    (h : ∀ o ∈ v.operationsToInclude, o.node.name.isSome = true) :
    (∀ node dvn ot ort ovt,
      ∀ o ∈ (visitOperation v node dvn ot ort ovt).2.operationsToInclude,
        o.node.name.isSome = true) ∧
    (sdkContentV v).isSome = true := by
  constructor
  · intro node dvn ot ort ovt o ho
    exact buildOperation_preserves_named v.externalImportPfx v.operationsToInclude
      node dvn ot ort ovt h o ho
  · exact sdkContentOf_isSome v.config v.operationsToInclude h

/-- Witness for C9 at a visitor state holding one named record, stepped with
an unnamed node. -/
theorem accumulated_name_read_safe_witness :
    (∀ o ∈ (visitOperation visitorA nodeUnnamed "D" "q" "R" "V").2.operationsToInclude,
      o.node.name.isSome = true) ∧
    (sdkContentV visitorA).isSome = true :=
  ⟨(accumulated_name_read_safe visitorA (by decide)).1 nodeUnnamed "D" "q" "R" "V",
   (accumulated_name_read_safe visitorA (by decide)).2⟩

/-- C10: rendering emits one free-standing function and one factory method
per accumulated record, and the emitted names follow the records one-to-one,
so two records sharing a name yield two functions and two methods with that
name — no merging, error, or warning. -/
theorem per_record_emission (cfg : GenericSdkPluginConfig)
    (ops : List OperationRecord) (cfgs : List ActionConfig)
    (h : actionConfigsOf cfg ops = some cfgs) :
    ((cfgs.map actionFunString).map fun s => indentMultiline s 2).length
      = ops.length ∧
    (cfgs.map actionImplString).length = ops.length ∧
    cfgs.map ActionConfig.operationName =
      ops.map fun o => (o.node.name.getD { value := "" }).value := by
  refine ⟨?_, ?_, actionConfigsOf_names cfg ops cfgs h⟩
  · simp [actionConfigsOf_length cfg ops cfgs h]
  · simp [actionConfigsOf_length cfg ops cfgs h]

/-- Witness for C10 at two accumulated records sharing the name `GetUser`:
two functions and two methods are emitted, both named `GetUser`. -/
theorem per_record_emission_witness :
    (([acGetUser, acGetUser].map actionFunString).map
        fun s => indentMultiline s 2).length
      = [recGetUser, recGetUser].length ∧
    ([acGetUser, acGetUser].map actionImplString).length
      = [recGetUser, recGetUser].length ∧
    [acGetUser, acGetUser].map ActionConfig.operationName =
      [recGetUser, recGetUser].map fun o => (o.node.name.getD { value := "" }).value :=
  per_record_emission cfgPlain [recGetUser, recGetUser] [acGetUser, acGetUser] rfl

end GenericSdk
